import Mathlib

/-!
Verification of the HubSpot form usability-enhancement layer.

This file shallowly embeds the validation and DOM-reconciliation engine of
the repository (FieldValidator, CharacterLimitValidator, FileUploadValidator,
HubSpotFormValidator, HubSpotFormManager) as executable Lean definitions and
proves/refutes the specification claims about them.

Modelling conventions:
- DOM element attributes and computed style checks are represented as record
  fields holding the value the JavaScript reads (for example an error alert
  carries a `visible` flag standing for the result of `isElementVisible`).
- JavaScript string lengths are modelled with `String.length` on Lean strings
  (identical on the ASCII inputs used throughout).
- `parseInt(attr) || d` on an attribute is modelled by an `Option Nat`
  together with `jsOrDefault`, which also reproduces the JS quirk that a
  parsed `0` is falsy and falls back to the default.
- Results of open-ended DOM searches that are not themselves under test
  (`findFieldForError`, the label-resolution walk of `getFieldLabel`, the
  JS regex engine for `pattern` attributes) are carried as oracle fields on
  the modelled nodes (`assocField`, `label`, `patternMatches`).
-/

set_option maxRecDepth 100000

/-- JS string primitives are re-implemented by structural recursion over
the character list of the string, so that concrete evaluations reduce
inside the kernel (the core `String.trim`/`String.splitOn` are defined by
well-founded recursion and do not). Semantics match the JS originals on
the inputs this system sees. -/
def jsTrim (s : String) : String :=
  String.mk (((s.data.dropWhile Char.isWhitespace).reverse.dropWhile
    Char.isWhitespace).reverse)

/-- JS `toLowerCase` (ASCII range, which is all the code compares). -/
def jsToLower (s : String) : String :=
  String.mk (s.data.map Char.toLower)

/-- JS `slice(n)` / the `drop` used after the leading plus sign. -/
def jsDrop (s : String) (n : Nat) : String :=
  String.mk (s.data.drop n)

/-- JS `startsWith`. -/
def jsStartsWith (s pre : String) : Bool :=
  pre.data.isPrefixOf s.data

/-- Occurrence of `sub` as a contiguous subsequence of `l`. -/
def listContainsSeq (sub : List Char) : List Char → Bool
  | [] => sub.isEmpty
  | c :: rest => sub.isPrefixOf (c :: rest) || listContainsSeq sub rest

/-- JS `String.prototype.includes`: true iff `sub` occurs as a substring
of `s` (an empty needle is always found). -/
def jsIncludes (s sub : String) : Bool :=
  listContainsSeq sub.data s.data

/-- JS `Array.prototype.join` on strings. -/
def jsJoin (sep : String) : List String → String
  | [] => ""
  | [x] => x
  | x :: rest => x ++ sep ++ jsJoin sep rest

/-- JS `a || b` on strings: the empty string is falsy. -/
def jsOr (a b : String) : String :=
  if a = "" then b else a

/-- JS `parseInt(x) || d` where `x` is an optional numeric attribute: an
absent (or non-numeric, hence NaN) attribute and a parsed `0` both fall
back to `d`. -/
def jsOrDefault (o : Option Nat) (d : Nat) : Nat :=
  match o with
  | some n => if n = 0 then d else n
  | none => d

/-- A string of `n` letters, used to build concrete field values of a
given length. -/
def mkA (n : Nat) : String :=
  String.mk (List.replicate n 'a')

/-! ## FileUploadValidator -/

/-- One entry of `input.files`: the data `validateFile` reads from a `File`. -/
structure FileInfo where
  name : String
  size : Nat
deriving Repr, DecidableEq

/-- The resolved FileUploadValidator configuration (runtime override, else
environment, else defaults) as read through the `allowedExtensions` and
`maxFileSize` getters. -/
structure FileConfig where
  allowedExtensions : List String
  maxFileSize : Nat
deriving Repr, DecidableEq

/-- The hardcoded default configuration of FileUploadValidator. -/
def defaultFileConfig : FileConfig :=
  { allowedExtensions := ["pdf", "doc", "docx", "jpg", "jpeg", "png", "gif", "txt"]
  , maxFileSize := 10 * 1024 * 1024 }

/-- `file.name.split('.').pop().toLowerCase()`: the (lowercased) segment
after the last dot, the whole name when there is none. -/
def fileExtension (name : String) : String :=
  jsToLower (String.mk ((name.data.reverse.takeWhile (fun c => c ≠ '.')).reverse))

/-- `formatFileSize`: binary units with one decimal place
(`parseFloat((bytes / 1024^i).toFixed(1)) + ' ' + sizes[i]`), with the
JS float rounding replaced by exact round-half-up arithmetic. -/
def log1024Aux : Nat → Nat → Nat
  | 0, _ => 0
  | fuel + 1, b => if b < 1024 then 0 else log1024Aux fuel (b / 1024) + 1

/-- Floor of the base-1024 logarithm (`Math.floor(Math.log(bytes) / Math.log(1024))`),
computed with structural fuel recursion. -/
def log1024 (bytes : Nat) : Nat :=
  log1024Aux bytes bytes

def formatFileSize (bytes : Nat) : String :=
  if bytes = 0 then "0 Bytes"
  else
    let i := log1024 bytes
    let unit := (["Bytes", "KB", "MB", "GB"].getD i "undefined")
    let tenths := (bytes * 10 * 2 + 1024 ^ i) / (2 * 1024 ^ i)
    let numStr :=
      if tenths % 10 = 0 then toString (tenths / 10)
      else toString (tenths / 10) ++ "." ++ toString (tenths % 10)
    numStr ++ " " ++ unit

/-- The size-violation error string pushed by `validateFile`. -/
def sizeErrorMsg (cfg : FileConfig) (f : FileInfo) : String :=
  "File \"" ++ f.name ++ "\" size exceeds " ++ formatFileSize cfg.maxFileSize ++ " limit"

/-- The extension-violation error string pushed by `validateFile`. -/
def extErrorMsg (cfg : FileConfig) (f : FileInfo) : String :=
  "File \"" ++ f.name ++ "\" type \"." ++ fileExtension f.name ++
    "\" is not allowed. Allowed types: " ++
    jsJoin ", " (cfg.allowedExtensions.map (fun e => "." ++ e))

/-- The error strings `validateFile` collects for one file: size check then
extension check. -/
def fileErrors (cfg : FileConfig) (f : FileInfo) : List String :=
  (if f.size > cfg.maxFileSize then [sizeErrorMsg cfg f] else []) ++
  (if cfg.allowedExtensions.contains (fileExtension f.name) then [] else [extErrorMsg cfg f])

/-- The `{ valid, errors }` record returned by `validateFile`. -/
structure ValidationResult where
  valid : Bool
  errors : List String
deriving Repr, DecidableEq

/-- `FileUploadValidator.validateFile` on the file list of an input:
no files selected is valid; otherwise every selected file contributes its
size and extension violations and the result is valid iff none occurred. -/
def validateFile (cfg : FileConfig) (files : List FileInfo) : ValidationResult :=
  if files.isEmpty then { valid := true, errors := [] }
  else
    let errors := files.flatMap (fileErrors cfg)
    { valid := errors.isEmpty, errors := errors }

/-! ## FieldValidator -/

/-- The field classification `FieldValidator.isFieldValid` switches on
(the DOM `type` property, with `textarea` distinguished because
`_validateTextBasedField` additionally tests `tagName === 'textarea'`). -/
inductive FType
  | checkbox
  | radio
  | tel
  | file
  | email
  | textarea
  | text
deriving Repr, DecidableEq

/-- A form field as the validators read it. `required` folds the
`required` attribute and `aria-required="true"` (the code always tests
both together). `dataCharLimit` is the parsed `data-character-limit`
attribute. `patternMatches` is the oracle for the `pattern` attribute:
`none` when the field has no (usable) pattern, `some b` when it has one
and the value matches (`b = true`) or not. `label` is the result of the
`getFieldLabel` DOM walk (never empty: its final fallback is the literal
string `Unknown field`). -/
structure DomField where
  ftype : FType
  name : String := ""
  id : String := ""
  value : String := ""
  checked : Bool := false
  required : Bool := false
  files : List FileInfo := []
  dataCharLimit : Option Nat := none
  patternMatches : Option Bool := none
  label : String := "Unknown field"
deriving Repr, DecidableEq

/-- `getFieldGroup`: `container.querySelectorAll('input[name="..."]')`,
restricted to input elements (a textarea never matches `input[...]`). -/
def getFieldGroup (field : DomField) (container : List DomField) : List DomField :=
  container.filter (fun g => g.ftype ≠ FType.textarea && g.name = field.name)

/-- `_validateCheckboxField`: with more than one same-named checkbox in the
container, valid iff some group member is checked, else iff this one is. -/
def validateCheckboxField (field : DomField) (container : List DomField) : Bool :=
  let grp := getFieldGroup field container
  if grp.length > 1 then grp.any (·.checked) else field.checked

/-- `_validateRadioField`: valid iff any same-named radio is checked. -/
def validateRadioField (field : DomField) (container : List DomField) : Bool :=
  (getFieldGroup field container).any (·.checked)

/-- The regex `^\+\d{0,3}$` of `_validateTelField`: a mandatory plus sign
followed by at most three digits and nothing else. -/
def telCountryCodeOnly (v : String) : Bool :=
  jsStartsWith v "+" && (jsDrop v 1).length ≤ 3 && (jsDrop v 1).data.all Char.isDigit

/-- `_validateTelField`: the trimmed value is non-empty, does not match
`^\+\d{0,3}$` and is not the bare string `+`. -/
def validateTelField (value : String) : Bool :=
  let v := jsTrim value
  !(v = "") && !(telCountryCodeOnly v) && !(v = "+")

/-- `_validateFileField`: with no files selected, valid iff the field is not
required; with files selected, valid iff `validateFile` passes. -/
def validateFileField (cfg : FileConfig) (field : DomField) : Bool :=
  if field.files.isEmpty then !field.required
  else (validateFile cfg field.files).valid

/-- `_validateTextBasedField`: non-blank trimmed value; textareas must in
addition be within `parseInt(data-character-limit) || 500` characters
(note the hardcoded 500, independent of `CharacterLimitValidator.DEFAULT_LIMIT`). -/
def validateTextBasedField (field : DomField) : Bool :=
  let hasContent := !(jsTrim field.value = "")
  if field.ftype = FType.textarea then
    let characterLimit := jsOrDefault field.dataCharLimit 500
    hasContent && field.value.length ≤ characterLimit
  else hasContent

/-- `FieldValidator.isFieldValid`: dispatch on the field type. -/
def isFieldValid (cfg : FileConfig) (field : DomField) (container : List DomField) : Bool :=
  match field.ftype with
  | FType.checkbox => validateCheckboxField field container
  | FType.radio => validateRadioField field container
  | FType.tel => validateTelField field.value
  | FType.file => validateFileField cfg field
  | _ => validateTextBasedField field

/-- `FieldValidator.isFieldInvalid`. -/
def isFieldInvalid (cfg : FileConfig) (field : DomField) (container : List DomField) : Bool :=
  !(isFieldValid cfg field container)

/-- `FieldValidator.needsValidation` (alias for `isFieldInvalid`). -/
def needsValidation (cfg : FileConfig) (field : DomField) (container : List DomField) : Bool :=
  isFieldInvalid cfg field container

/-! ## CharacterLimitValidator -/

/-- `init(options)`: `options.characterLimit` overwrites
`CharacterLimitValidator.DEFAULT_LIMIT` when truthy, else the default 500
stands. -/
def initDefaultLimit (characterLimit : Option Nat) : Nat :=
  jsOrDefault characterLimit 500

/-- The counter element's text and class as written by
`updateCharacterCounter`. -/
structure CounterDisplay where
  text : String
  className : String
deriving Repr, DecidableEq

/-- `updateCharacterCounter`: text `current/limit characters`; the class is
danger when `remaining == 0`, warning when `remaining <= 20` (a signed
comparison: being over the limit gives a negative remainder), default
otherwise. -/
def updateCharacterCounter (value : String) (characterLimit : Nat) : CounterDisplay :=
  let currentLength := value.length
  let remaining : Int := (characterLimit : Int) - (currentLength : Int)
  { text := toString currentLength ++ "/" ++ toString characterLimit ++ " characters"
  , className :=
      if remaining = 0 then "hsfc-CharacterCounter hsfc-CharacterCounter--danger"
      else if remaining ≤ 20 then "hsfc-CharacterCounter hsfc-CharacterCounter--warning"
      else "hsfc-CharacterCounter hsfc-CharacterCounter--default" }

/-- `CharacterLimitValidator.hasCharacterLimitError`: value length exceeds
`parseInt(data-character-limit) || DEFAULT_LIMIT`. -/
def hasCharacterLimitError (defaultLimit : Nat) (textarea : DomField) : Bool :=
  textarea.value.length > jsOrDefault textarea.dataCharLimit defaultLimit

/-- `CharacterLimitValidator.getCharacterLimitErrorMessage`: over the limit
yields `label: Must be N characters or less (currently k over)`, else null. -/
def getCharacterLimitErrorMessage (defaultLimit : Nat) (textarea : DomField) :
    Option String :=
  let characterLimit := jsOrDefault textarea.dataCharLimit defaultLimit
  let currentLength := textarea.value.length
  if currentLength > characterLimit then
    let overBy := currentLength - characterLimit
    let fieldLabel := jsOr textarea.label "Text area"
    some (fieldLabel ++ ": Must be " ++ toString characterLimit ++
      " characters or less (currently " ++ toString overBy ++ " over)")
  else none

/-! ## HubSpotFormValidator: step model -/

/-- An `.hsfc-ErrorAlert` element other than the custom summary block:
a widget-native error or one of the custom character/file error blocks
(all of which the summary-excluding `:not(.hsfc-CustomValidationError)`
queries also match). `visible` is the result of `isElementVisible`;
`assocField` is the oracle for the six-strategy `findFieldForError`
search: the index of the field it resolves to, or `none` when every
strategy fails (as it must when the step contains no form fields at
all, since every strategy queries for `input, select, textarea`). -/
structure ErrorAlert where
  visible : Bool
  text : String
  assocField : Option Nat := none
deriving Repr, DecidableEq

/-- A navigation-row button (`.hsfc-NavigationRow button[type="button"|"submit"]`). -/
structure NavButton where
  text : String
deriving Repr, DecidableEq

/-- One `.hsfc-Step` of a form instance, carrying exactly the state the
validator reads and writes. `visible` is the computed-style visibility
test of `validateVisibleStep`; `hasSummary` is the presence of the
synthesized `.hsfc-CustomValidationError` block; `hasRepositionedBar`
the presence of an `.hsfc-ProgressBar--repositioned`;
`fallbackClasses` the `hsfc-step-with-validation-and-progress` /
`hsfc-content-with-validation-and-progress` class pair. -/
structure Step where
  visible : Bool := true
  navButtons : List NavButton := []
  fields : List DomField := []
  alerts : List ErrorAlert := []
  hasSummary : Bool := false
  summaryEntries : List String := []
  hasRepositionedBar : Bool := false
  fallbackClasses : Bool := false
deriving Repr, DecidableEq

/-- `findNavigationButton`: the first navigation button whose trimmed
lowercased text contains neither `previous` nor `back`. -/
def findNavigationButton (step : Step) : Option NavButton :=
  step.navButtons.find? (fun b =>
    let t := jsToLower (jsTrim b.text)
    !(jsIncludes t "previous") && !(jsIncludes t "back"))

/-- The visible-error test of `getFieldsWithErrors` and
`checkAndRemoveErrorSummary`, whose selector is
`.hsfc-ErrorAlert:not(.hsfc-CustomValidationError)`: some non-summary
alert is visible with non-blank text. -/
def hasVisibleErrors (step : Step) : Bool :=
  step.alerts.any (fun e => e.visible && !(jsTrim e.text = ""))

/-- The visible-error test of `validateVisibleStep`, whose selector is
the BARE `.hsfc-ErrorAlert`: it additionally matches the synthesized
summary block itself (class `hsfc-ErrorAlert hsfc-CustomValidationError`),
which, when present, sits rendered inside the visible step with its
never-blank heading text — so an existing summary always fails this
test. -/
def hasVisibleErrorsBare (step : Step) : Bool :=
  hasVisibleErrors step || step.hasSummary

/-- The fields of a step paired with their indices (node identity). -/
def indexedFields (step : Step) : List (Nat × DomField) :=
  step.fields.enum

/-- The required fields of a step (the `required` /
`aria-required="true"` selector), with indices. -/
def requiredIndexed (step : Step) : List (Nat × DomField) :=
  (indexedFields step).filter (fun p => p.2.required)

/-- The `processedFieldGroups` dedup loop: radio and checkbox fields after
the first occurrence of their group name are dropped; other fields pass
through. -/
def dedupGroupsAux (seen : List String) : List (Nat × DomField) → List (Nat × DomField)
  | [] => []
  | p :: rest =>
    if p.2.ftype = FType.radio ∨ p.2.ftype = FType.checkbox then
      if seen.contains p.2.name then dedupGroupsAux seen rest
      else p :: dedupGroupsAux (p.2.name :: seen) rest
    else p :: dedupGroupsAux seen rest

/-- Group-name deduplication starting from an empty seen set. -/
def dedupGroups (fields : List (Nat × DomField)) : List (Nat × DomField) :=
  dedupGroupsAux [] fields

/-- `createValidator(formContainer).validateVisibleStep()` on a form
(list of steps): locate the first visible step (fail closed when none),
require a navigation button (fail closed when none), fail on any visible
`.hsfc-ErrorAlert` with non-blank text — the bare selector, which counts
an existing custom summary too — then require every required field,
deduplicated by group name, to pass `FieldValidator.isFieldValid`
against the visible step. -/
def validateVisibleStep (cfg : FileConfig) (form : List Step) : Bool :=
  match form.find? (fun s => s.visible) with
  | none => false
  | some step =>
    match findNavigationButton step with
    | none => false
    | some _ =>
      if hasVisibleErrorsBare step then false
      else
        (dedupGroups (requiredIndexed step)).all
          (fun p => isFieldValid cfg p.2 step.fields)

/-- `isValidEmail`: the regex `^[^\s@]+@[^\s@]+\.[^\s@]+$` on the trimmed
value — exactly one `@`, no whitespace, a non-empty local part, and a dot
in the interior of the domain part. -/
def isValidEmail (email : String) : Bool :=
  let s := (jsTrim email).data
  (s.count '@' = 1) &&
    (let a := s.takeWhile (fun c => c ≠ '@')
     let b := (s.dropWhile (fun c => c ≠ '@')).drop 1
     !(a.isEmpty) && a.all (fun c => !c.isWhitespace) &&
       b.all (fun c => !c.isWhitespace) && ((b.drop 1).dropLast.contains '.'))

/-- The email-shaped-field test `field.type === 'email' ||
field.name?.toLowerCase().includes('email')`. -/
def isEmailLike (f : DomField) : Bool :=
  f.ftype = FType.email || jsIncludes (jsToLower f.name) "email"

/-- The label used for summary entries:
`getFieldLabel(field) || `Field "${field.name || field.id || 'unknown'}"``. -/
def entryLabel (f : DomField) : String :=
  jsOr f.label ("Field \"" ++ jsOr f.name (jsOr f.id "unknown") ++ "\"")

/-- Whether a field index is already in the collected problem list
(`fieldsWithErrors.some(f => f.field === field)`). -/
def alreadyListed (acc : List (Nat × String)) (i : Nat) : Bool :=
  acc.any (fun q => q.1 = i)

/-- Source (a) of `getFieldsWithErrors`: visible native alerts whose
six-strategy field search succeeds become `label: errortext` entries;
alerts with no resolvable field are silently dropped. -/
def problemsFromAlerts (step : Step) : List (Nat × String) :=
  step.alerts.foldl (fun acc e =>
    if e.visible && !(jsTrim e.text = "") then
      match e.assocField with
      | some i =>
        match step.fields.get? i with
        | some f => acc ++ [(i, entryLabel f ++ ": " ++ jsTrim e.text)]
        | none => acc
      | none => acc
    else acc) []

/-- Source (b): textareas over their character limit, deduplicated by
field identity, described by `getCharacterLimitErrorMessage`. -/
def addTextareaProblems (defaultLimit : Nat) (step : Step)
    (acc : List (Nat × String)) : List (Nat × String) :=
  (indexedFields step).foldl (fun acc p =>
    if p.2.ftype = FType.textarea then
      if hasCharacterLimitError defaultLimit p.2 then
        match getCharacterLimitErrorMessage defaultLimit p.2 with
        | some msg => if alreadyListed acc p.1 then acc else acc ++ [(p.1, msg)]
        | none => acc
      else acc
    else acc) acc

/-- Source (c): required fields (group-deduplicated) failing
`FieldValidator` and not already listed. -/
def addRequiredProblems (cfg : FileConfig) (step : Step)
    (acc : List (Nat × String)) : List (Nat × String) :=
  (dedupGroups (requiredIndexed step)).foldl (fun acc p =>
    if isFieldInvalid cfg p.2 step.fields && !(alreadyListed acc p.1) then
      acc ++ [(p.1, entryLabel p.2 ++ ": Please complete this required field.")]
    else acc) acc

/-- Source (d): fields with a non-blank value failing the email-shape
check (for email-like fields) or, otherwise, a declared `pattern`. -/
def addFormatProblems (step : Step) (acc : List (Nat × String)) :
    List (Nat × String) :=
  (indexedFields step).foldl (fun acc p =>
    if alreadyListed acc p.1 || jsTrim p.2.value = "" then acc
    else
      if isEmailLike p.2 then
        if !(isValidEmail p.2.value) then
          acc ++ [(p.1, entryLabel p.2 ++ " must be formatted correctly")]
        else acc
      else
        match p.2.patternMatches with
        | some false => acc ++ [(p.1, entryLabel p.2 ++ " must be formatted correctly")]
        | _ => acc) acc

/-- Source (e): empty email-like fields not already listed, reported as
required even when not formally marked so. -/
def addEmptyEmailProblems (step : Step) (acc : List (Nat × String)) :
    List (Nat × String) :=
  (indexedFields step).foldl (fun acc p =>
    if alreadyListed acc p.1 || !(jsTrim p.2.value = "") then acc
    else if isEmailLike p.2 then
      acc ++ [(p.1, entryLabel p.2 ++ ": Please complete this required field.")]
    else acc) acc

/-- `getFieldsWithErrors`: the four-source problem collector, in order,
deduplicated by field identity. -/
def getFieldsWithErrors (cfg : FileConfig) (defaultLimit : Nat) (step : Step) :
    List (Nat × String) :=
  addEmptyEmailProblems step
    (addFormatProblems step
      (addRequiredProblems cfg step
        (addTextareaProblems defaultLimit step
          (problemsFromAlerts step))))

/-- `showValidationError`: remove any existing summary, collect the
problems; with none, stop (no summary); otherwise insert the summary
block with one entry per problem. `addFlexboxFallbackClasses` runs after
the old summary is removed and before the new block is inserted, so it
adds the class pair only when a repositioned progress bar is present. -/
def showValidationError (cfg : FileConfig) (defaultLimit : Nat) (step : Step) : Step :=
  let problems := getFieldsWithErrors cfg defaultLimit step
  if problems.isEmpty then
    { step with hasSummary := false, summaryEntries := [] }
  else
    { step with
        hasSummary := true
      , summaryEntries := problems.map (fun p => p.2)
      , fallbackClasses := step.fallbackClasses || step.hasRepositionedBar }

/-- The three live conditions re-evaluated by `checkAndRemoveErrorSummary`:
visible native errors, invalid required fields (group-deduplicated),
character-limit overflow on some textarea. -/
def liveProblems (cfg : FileConfig) (defaultLimit : Nat) (step : Step) : Bool :=
  hasVisibleErrors step ||
  (dedupGroups (requiredIndexed step)).any (fun p => isFieldInvalid cfg p.2 step.fields) ||
  step.fields.any (fun f => f.ftype = FType.textarea && hasCharacterLimitError defaultLimit f)

/-- `checkAndRemoveErrorSummary`: nothing to do without a summary; with
one, delete it exactly when all three live conditions are false, also
dropping the fallback class pair unless a repositioned progress bar still
needs it (`removeFlexboxFallbackClasses` re-queries after the removal). -/
def checkAndRemoveErrorSummary (cfg : FileConfig) (defaultLimit : Nat) (step : Step) : Step :=
  if !step.hasSummary then step
  else if liveProblems cfg defaultLimit step then step
  else
    { step with
        hasSummary := false
      , summaryEntries := []
      , fallbackClasses := step.hasRepositionedBar && step.fallbackClasses }

/-- `removeValidationError` (delegates to the smart check). -/
def removeValidationError (cfg : FileConfig) (defaultLimit : Nat) (step : Step) : Step :=
  checkAndRemoveErrorSummary cfg defaultLimit step

/-! ## HubSpotFormManager: navigation click handling -/

/-- The synthetic events `triggerFieldValidations` dispatches on a field.
The two `deferred` constructors are the focus/blur pair fired from the
50ms `setTimeout` in the telephone branch. -/
inductive FEvent
  | focus
  | blur
  | input
  | change
  | invalid
  | keyup
  | deferredFocus
  | deferredBlur
deriving Repr, DecidableEq

/-- The extended replay for an invalid required telephone field:
focus, input, change, blur, synthetic invalid, keyup, then the deferred
focus/blur pair. -/
def telReplaySeq : List FEvent :=
  [FEvent.focus, FEvent.input, FEvent.change, FEvent.blur, FEvent.invalid,
   FEvent.keyup, FEvent.deferredFocus, FEvent.deferredBlur]

/-- The standard replay for other invalid required fields: focus, blur,
change, input, plus a synthetic invalid for checkbox/radio groups. -/
def stdReplaySeq (groupField : Bool) : List FEvent :=
  [FEvent.focus, FEvent.blur, FEvent.change, FEvent.input] ++
    (if groupField then [FEvent.invalid] else [])

/-- The unconditional nudge for non-required telephone fields. -/
def telNudgeSeq : List FEvent :=
  [FEvent.focus, FEvent.input, FEvent.change, FEvent.blur, FEvent.invalid, FEvent.keyup]

/-- The unconditional nudge for non-required email-like fields. -/
def emailNudgeSeq : List FEvent :=
  [FEvent.focus, FEvent.blur, FEvent.change]

/-- The nudge for non-required fields with a `pattern` and a value. -/
def patternNudgeSeq : List FEvent :=
  [FEvent.focus, FEvent.blur, FEvent.change]

/-- `triggerFieldValidations`: required fields (group-deduplicated) that
fail `needsValidation` get the telephone or standard replay; then every
non-required field gets its telephone / email / pattern nudges, each an
independent `if`. The result is the dispatch log as (field index, event)
pairs in program order. -/
def triggerFieldValidations (cfg : FileConfig) (step : Step) : List (Nat × FEvent) :=
  ((dedupGroups (requiredIndexed step)).flatMap (fun p =>
    if needsValidation cfg p.2 step.fields then
      (if p.2.ftype = FType.tel then telReplaySeq
       else stdReplaySeq (p.2.ftype = FType.checkbox || p.2.ftype = FType.radio)).map
        (fun e => (p.1, e))
    else [])) ++
  ((indexedFields step).flatMap (fun p =>
    if p.2.required then []
    else
      ((if p.2.ftype = FType.tel then telNudgeSeq else []) ++
       (if isEmailLike p.2 then emailNudgeSeq else []) ++
       (if p.2.patternMatches.isSome && !(p.2.value = "") then patternNudgeSeq else [])).map
        (fun e => (p.1, e))))

/-- The observable outcome of one navigation-button click:
whether `preventDefault`/`stopPropagation` ran, the replay log, and the
form afterwards. -/
structure ClickResult where
  prevented : Bool
  replays : List (Nat × FEvent)
  form : List Step
deriving Repr, DecidableEq

/-- `handleNextButtonClick` for a click on a non-previous navigation button
inside step `clickedIdx` (the `event.target.closest('.hsfc-Step')` of the
click): re-run `validateVisibleStep` on the whole form; when invalid,
prevent the default action, replay field validations on the clicked step
and rebuild the summary there; when valid, run the summary-removal check
and let the default action proceed. The handler itself never changes step
visibility or submits. -/
def handleNextButtonClick (cfg : FileConfig) (defaultLimit : Nat)
    (form : List Step) (clickedIdx : Nat) : ClickResult :=
  match form.get? clickedIdx with
  | none => { prevented := false, replays := [], form := form }
  | some step =>
    if validateVisibleStep cfg form then
      { prevented := false
      , replays := []
      , form := form.set clickedIdx (removeValidationError cfg defaultLimit step) }
    else
      { prevented := true
      , replays := triggerFieldValidations cfg step
      , form := form.set clickedIdx (showValidationError cfg defaultLimit step) }

/-! ## HubSpotFormManager: per-form setup and cleanup -/

/-- One cleanup bundle (the record built by `createFormCleanup`), reduced
to its identity and whether `destroy()` has run on it. -/
structure Bundle where
  id : Nat
  destroyed : Bool
deriving Repr, DecidableEq

/-- The manager's state for one form instance: membership in the
`initializedForms` WeakSet, the history of bundles ever created for it,
the bundle currently stored in `formCleanupMap`, and a fresh-id counter. -/
structure MgrState where
  initialized : Bool
  bundles : List Bundle
  current : Option Nat
  nextId : Nat
deriving Repr, DecidableEq

/-- `destroy()` on the bundle with the given id. -/
def destroyBundle (bundles : List Bundle) (cid : Nat) : List Bundle :=
  bundles.map (fun b => if b.id = cid then { b with destroyed := true } else b)

/-- `setupSingleForm`: an instance already in `initializedForms` returns
immediately; otherwise any bundle still in `formCleanupMap` is destroyed,
a fresh bundle is created and recorded, and the instance is marked
initialized. -/
def setupSingleForm (s : MgrState) : MgrState :=
  if s.initialized then s
  else
    let bundles1 :=
      match s.current with
      | some cid => destroyBundle s.bundles cid
      | none => s.bundles
    { initialized := true
    , bundles := bundles1 ++ [{ id := s.nextId, destroyed := false }]
    , current := some s.nextId
    , nextId := s.nextId + 1 }

/-- How a listener or observer created during `setupSingleForm` is (or is
not) reachable from the cleanup bundle: registered with the
`AbortController` signal, pushed onto `cleanup.observers`, recorded in
`cleanup.globalListeners`, or none of these. -/
inductive LRoute
  | scoped
  | observed
  | globalTracked
  | untracked
deriving Repr, DecidableEq

/-- The registration sites of `setupSingleForm` and the helpers it calls. -/
inductive LKind
  | navClick
  | fieldEvent
  | textInputLimit
  | formObserver
  | progressObserver
  | dropdownKeydown
  | dropdownClick
  | phoneFlagKeydown
  | phoneSearchKeydown
  | phoneDropdownKeydown
  | phoneOptionsKeydown
  | phoneFlagClick
  | phoneOutsideClick
  | phoneOptionsClick
  | phoneCountrySelected
  | phoneInputEvent
  | phoneKeydown
  | phoneFocus
  | phoneSelect
  | phoneMouseup
  | textareaInput
  | textareaKeyup
  | textareaPaste
  | textareaFocus
  | charErrObserver
  | preemptiveObserver
  | fileChange
deriving Repr, DecidableEq

/-- One registration performed during setup. -/
structure Reg where
  kind : LKind
  route : LRoute
deriving Repr, DecidableEq

/-- The shape of one form instance as setup traverses it. -/
structure FormDesc where
  navButtons : Nat
  visibleFields : Nat
  textInputs : Nat
  dropdowns : Nat
  phoneFields : Nat
  textareas : Nat
  fileInputs : Nat
deriving Repr, DecidableEq

/-- The registrations of `addFieldListeners` per field: input, change and
blur handlers, all under the abort signal. -/
def fieldRegs : List Reg :=
  [{ kind := LKind.fieldEvent, route := LRoute.scoped },
   { kind := LKind.fieldEvent, route := LRoute.scoped },
   { kind := LKind.fieldEvent, route := LRoute.scoped }]

/-- The registrations of `setupDropdownAccessibility` per non-phone
dropdown: keydown and click, both under the abort signal. -/
def dropdownRegs : List Reg :=
  [{ kind := LKind.dropdownKeydown, route := LRoute.scoped },
   { kind := LKind.dropdownClick, route := LRoute.scoped }]

/-- The registrations of `setupPhoneFieldAccessibility` per phone field:
everything under the abort signal except the document-level outside-click
handler, which is recorded in `cleanup.globalListeners`. -/
def phoneRegs : List Reg :=
  [{ kind := LKind.phoneFlagKeydown, route := LRoute.scoped },
   { kind := LKind.phoneSearchKeydown, route := LRoute.scoped },
   { kind := LKind.phoneDropdownKeydown, route := LRoute.scoped },
   { kind := LKind.phoneOptionsKeydown, route := LRoute.scoped },
   { kind := LKind.phoneFlagClick, route := LRoute.scoped },
   { kind := LKind.phoneOutsideClick, route := LRoute.globalTracked },
   { kind := LKind.phoneOptionsClick, route := LRoute.scoped },
   { kind := LKind.phoneCountrySelected, route := LRoute.scoped },
   { kind := LKind.phoneInputEvent, route := LRoute.scoped },
   { kind := LKind.phoneKeydown, route := LRoute.scoped },
   { kind := LKind.phoneFocus, route := LRoute.scoped },
   { kind := LKind.phoneSelect, route := LRoute.scoped },
   { kind := LKind.phoneMouseup, route := LRoute.scoped }]

/-- The registrations of `setupSingleTextarea` per textarea: four listeners
under the abort signal plus the error-hiding and preemptive observers,
both pushed onto `cleanup.observers`. -/
def textareaRegs : List Reg :=
  [{ kind := LKind.textareaInput, route := LRoute.scoped },
   { kind := LKind.textareaKeyup, route := LRoute.scoped },
   { kind := LKind.textareaPaste, route := LRoute.scoped },
   { kind := LKind.textareaFocus, route := LRoute.scoped },
   { kind := LKind.charErrObserver, route := LRoute.observed },
   { kind := LKind.preemptiveObserver, route := LRoute.observed }]

/-- Every listener and observer registration `setupSingleForm` performs,
in traversal order: navigation-button click handlers, field listeners and
text-input limit guards, the structural form observer, phone and dropdown
accessibility handlers, the progress-bar observer, character-limit
listeners/observers, and `FileUploadValidator.setup`, whose per-input
`change` handler is attached with no signal and no tracking. -/
def setupRegs (d : FormDesc) : List Reg :=
  List.replicate d.navButtons { kind := LKind.navClick, route := LRoute.scoped } ++
  (List.replicate d.visibleFields fieldRegs).flatten ++
  List.replicate d.textInputs { kind := LKind.textInputLimit, route := LRoute.scoped } ++
  [{ kind := LKind.formObserver, route := LRoute.observed }] ++
  (List.replicate d.phoneFields phoneRegs).flatten ++
  (List.replicate d.dropdowns dropdownRegs).flatten ++
  [{ kind := LKind.progressObserver, route := LRoute.observed }] ++
  (List.replicate d.textareas textareaRegs).flatten ++
  List.replicate d.fileInputs { kind := LKind.fileChange, route := LRoute.untracked }

/-- The registrations still active after `cleanup.destroy()`: the abort
signal kills the scoped ones, `disconnect()` the observers and
`removeEventListener` the tracked global ones; only untracked
registrations survive. -/
def survivorsAfterDestroy (regs : List Reg) : List Reg :=
  regs.filter (fun r => r.route = LRoute.untracked)

/-! ## Progress-bar repositioning -/

/-- A child of a step-content node in the flattened DOM model: a
`.hsfc-Row` or `.hsfc-FormField`/`.hs-form-field` container (with or
without a form input inside), a bare input/select/textarea, the custom
validation-error summary, or anything else. -/
inductive PBItem
  | row (hasInput : Bool)
  | formField (hasInput : Bool)
  | bareInput
  | validationError
  | other
deriving Repr, DecidableEq

/-- The state `repositionProgressBar` touches: the bar's
`data-repositioned` attribute and `--repositioned` class, whether the bar
sits inside a `.hsfc-Step`, the step content's other children in order,
the bar's position among them (`none` while it is elsewhere in the step),
and the flexbox fallback class pair. -/
structure PBState where
  repositioned : Bool
  repositionedClass : Bool
  inStep : Bool
  content : List PBItem
  barPos : Option Nat
  fallbackClasses : Bool
deriving Repr, DecidableEq

/-- `findFirstFormField`: the first container with a real form input,
else the first bare input element. -/
def findFirstFormField (content : List PBItem) : Option Nat :=
  match content.findIdx? (fun it =>
    match it with
    | PBItem.row h => h
    | PBItem.formField h => h
    | _ => false) with
  | some i => some i
  | none =>
    content.findIdx? (fun it =>
      match it with
      | PBItem.bareInput => true
      | _ => false)

/-- `HubSpotFormManager.repositionProgressBar`: return immediately when the
`data-repositioned` marker is present or the bar is outside any step;
otherwise set the marker, detach the bar, re-insert it before the first
form-field container (appending when none exists), tag it with the
`--repositioned` class, and apply the flexbox fallback classes (the check
runs while the bar is detached, so it fires on an existing summary). -/
def repositionProgressBar (s : PBState) : PBState :=
  if s.repositioned then s
  else if !s.inStep then s
  else
    let pos :=
      match findFirstFormField s.content with
      | some i => i
      | none => s.content.length
    { s with
        repositioned := true
      , repositionedClass := true
      , barPos := some pos
      , fallbackClasses :=
          s.fallbackClasses || s.content.any (fun it => it = PBItem.validationError) }

/-- The per-bar body of `positionElementsImmediately` (entry point,
part_000): same marker guard, but the bar lands right after an existing
validation-error summary, else before the first match of
`.hsfc-Row:has(input,select,textarea), .hsfc-FormField, .hs-form-field,
input, select, textarea`, else at the front of the step content. -/
def positionElementsImmediately (s : PBState) : PBState :=
  if s.repositioned then s
  else if !s.inStep then s
  else
    let pos :=
      match s.content.findIdx? (fun it =>
        match it with
        | PBItem.validationError => true
        | _ => false) with
      | some i => i + 1
      | none =>
        match s.content.findIdx? (fun it =>
          match it with
          | PBItem.row h => h
          | PBItem.formField _ => true
          | PBItem.bareInput => true
          | _ => false) with
        | some i => i
        | none => 0
    { s with repositioned := true, repositionedClass := true, barPos := some pos }

/-! ## Concrete fixtures and spec-side definitions -/

/-- The claim reading of telephone validity (C7): the rejected pattern has
an OPTIONAL plus sign, so digit-only strings of up to three digits would
also be rejected. -/
def telValidPerClaim (value : String) : Bool :=
  let v := jsTrim value
  let core := if jsStartsWith v "+" then jsDrop v 1 else v
  !(v = "") && !(v = "+") && !(core.length ≤ 3 && core.data.all Char.isDigit)

/-- The amended reading of telephone validity: the rejected
country-code-only pattern requires the plus sign, exactly as the regex
`^\+\d{0,3}$` does. -/
def telValidAmendedSpec (value : String) : Bool :=
  let v := jsTrim value
  !(v = "") && !(v = "+") &&
    !(jsStartsWith v "+" && (jsDrop v 1).length ≤ 3 && (jsDrop v 1).data.all Char.isDigit)

/-- A non-required email field holding a non-email value: a format problem
the summary collector reports but the three live removal conditions miss. -/
def c1EmailField : DomField :=
  { ftype := FType.email, name := "your_email", value := "foo", label := "Email" }

/-- A visible step whose only problem is the email-format error. -/
def c1DemoStep : Step :=
  { visible := true, navButtons := [{ text := "Next" }], fields := [c1EmailField] }

/-- A visible step containing a Next button, no form fields at all, and
one visible non-blank error alert. With no `input, select, textarea`
anywhere in the step, every strategy of `findFieldForError` fails, so
the oracle is `none`. -/
def c2AlertStep : Step :=
  { visible := true, navButtons := [{ text := "Next" }], fields := []
  , alerts := [{ visible := true, text := "Something went wrong", assocField := none }] }

/-- A required telephone field holding a bare country code. -/
def c2TelField : DomField :=
  { ftype := FType.tel, name := "phone", value := "+1", required := true, label := "Phone number" }

/-- A visible step failing validation on the telephone field alone. -/
def c2TelStep : Step :=
  { visible := true, navButtons := [{ text := "Next" }], fields := [c2TelField] }

/-- A form instance not yet set up. -/
def c3FreshState : MgrState :=
  { initialized := false, bundles := [], current := none, nextId := 0 }

/-- A form instance with a stale bundle but no membership mark: the only
state from which the destroy-and-replace path of `setupSingleForm` runs. -/
def c3StaleState : MgrState :=
  { initialized := false, bundles := [{ id := 0, destroyed := false }]
  , current := some 0, nextId := 1 }

/-- A representative form shape with one of everything, including one file
input. -/
def c4DemoForm : FormDesc :=
  { navButtons := 1, visibleFields := 2, textInputs := 1, dropdowns := 1
  , phoneFields := 1, textareas := 1, fileInputs := 1 }

/-- An oversize pdf, a disallowed extension, and a file passing both checks. -/
def c5DemoFiles : List FileInfo :=
  [{ name := "big.pdf", size := 10485761 }, { name := "bad.exe", size := 10 },
   { name := "ok.pdf", size := 10 }]

/-- A textarea with declared limit 500 holding 503 characters. -/
def c9Textarea : DomField :=
  { ftype := FType.textarea, value := mkA 503, dataCharLimit := some 500, label := "Message" }

/-- A textarea carrying no `data-character-limit` attribute. -/
def c10Textarea (v : String) : DomField :=
  { ftype := FType.textarea, value := v, label := "Comments" }

/-! ## Helper lemmas -/

theorem bool_and_rotate (x y z : Bool) : ((x && y) && z) = ((x && z) && y) := by
  cases x <;> cases y <;> cases z <;> rfl

theorem get?_set_self {α : Type} (l : List α) (i : Nat) (a : α)
    (h : l.get? i = some a) : l.set i a = l := by
  induction l generalizing i with
  | nil => simp at h
  | cons b t ih =>
    cases i with
    | zero =>
      have hb : b = a := by simpa using h
      simp [hb]
    | succ j =>
      have h2 : t.get? j = some a := by simpa using h
      simp [ih j h2]

theorem get?_set_eq {α : Type} (l : List α) (i : Nat) (a b : α)
    (h : l.get? i = some a) : (l.set i b).get? i = some b := by
  induction l generalizing i with
  | nil => simp at h
  | cons c t ih =>
    cases i with
    | zero => rfl
    | succ j => simpa using ih j (by simpa using h)

theorem showValidationError_hasSummary (cfg : FileConfig) (dl : Nat) (step : Step) :
    (showValidationError cfg dl step).hasSummary =
      !(getFieldsWithErrors cfg dl step).isEmpty := by
  unfold showValidationError
  cases h : (getFieldsWithErrors cfg dl step).isEmpty <;> simp [h]

theorem checkAndRemoveErrorSummary_hasSummary (cfg : FileConfig) (dl : Nat) (step : Step) :
    (checkAndRemoveErrorSummary cfg dl step).hasSummary =
      (step.hasSummary && liveProblems cfg dl step) := by
  unfold checkAndRemoveErrorSummary
  cases hs : step.hasSummary <;> cases hl : liveProblems cfg dl step <;> simp [hs, hl]

theorem showValidationError_visible (cfg : FileConfig) (dl : Nat) (step : Step) :
    (showValidationError cfg dl step).visible = step.visible := by
  unfold showValidationError
  cases h : (getFieldsWithErrors cfg dl step).isEmpty <;> simp [h]

theorem checkAndRemoveErrorSummary_visible (cfg : FileConfig) (dl : Nat) (step : Step) :
    (checkAndRemoveErrorSummary cfg dl step).visible = step.visible := by
  unfold checkAndRemoveErrorSummary
  cases hs : step.hasSummary <;> cases hl : liveProblems cfg dl step <;> simp [hs, hl]

theorem mem_dedupGroupsAux (seen : List String) (l : List (Nat × DomField))
    (p : Nat × DomField) (hp : p ∈ l)
    (hft : ¬(p.2.ftype = FType.radio ∨ p.2.ftype = FType.checkbox)) :
    p ∈ dedupGroupsAux seen l := by
  induction l generalizing seen with
  | nil => cases hp
  | cons q rest ih =>
    rcases List.mem_cons.mp hp with hq | hrest
    · subst hq
      unfold dedupGroupsAux
      rw [if_neg hft]
      exact List.mem_cons_self _ _
    · unfold dedupGroupsAux
      by_cases hg : q.2.ftype = FType.radio ∨ q.2.ftype = FType.checkbox
      · rw [if_pos hg]
        by_cases hseen : seen.contains q.2.name
        · rw [if_pos hseen]; exact ih seen hrest
        · rw [if_neg hseen]; exact List.mem_cons_of_mem _ (ih _ hrest)
      · rw [if_neg hg]; exact List.mem_cons_of_mem _ (ih seen hrest)

theorem destroyBundle_destroys (bundles : List Bundle) (cid : Nat) (b : Bundle)
    (hb : b ∈ destroyBundle bundles cid) (hid : b.id = cid) : b.destroyed = true := by
  unfold destroyBundle at hb
  rcases List.mem_map.mp hb with ⟨a, _, ha⟩
  by_cases h : a.id = cid
  · rw [if_pos h] at ha; rw [← ha]
  · rw [if_neg h] at ha; rw [← ha] at hid; exact absurd hid h

theorem survivors_append (l1 l2 : List Reg) :
    survivorsAfterDestroy (l1 ++ l2) =
      survivorsAfterDestroy l1 ++ survivorsAfterDestroy l2 := by
  unfold survivorsAfterDestroy
  exact List.filter_append l1 l2

theorem survivors_replicate (n : Nat) (a : Reg) :
    survivorsAfterDestroy (List.replicate n a) =
      if a.route = LRoute.untracked then List.replicate n a else [] := by
  induction n with
  | zero => simp [survivorsAfterDestroy]
  | succ m ih =>
    unfold survivorsAfterDestroy at ih ⊢
    by_cases h : a.route = LRoute.untracked
    · simp [List.replicate_succ, List.filter_cons, h, ih]
    · simp [List.replicate_succ, List.filter_cons, h, ih]

theorem survivors_flatten_replicate (n : Nat) (l : List Reg)
    (h : survivorsAfterDestroy l = []) :
    survivorsAfterDestroy (List.replicate n l).flatten = [] := by
  induction n with
  | zero => rfl
  | succ m ih =>
    rw [List.replicate_succ, List.flatten_cons, survivors_append, h, ih]
    rfl

theorem validateFile_errors_eq (cfg : FileConfig) (files : List FileInfo) :
    (validateFile cfg files).errors = files.flatMap (fileErrors cfg) := by
  unfold validateFile
  cases files <;> simp

theorem validateFile_valid_eq (cfg : FileConfig) (files : List FileInfo) :
    (validateFile cfg files).valid = (files.flatMap (fileErrors cfg)).isEmpty := by
  unfold validateFile
  cases files <;> simp

theorem fileErrors_eq_nil_iff (cfg : FileConfig) (f : FileInfo) :
    fileErrors cfg f = [] ↔
      (f.size ≤ cfg.maxFileSize ∧
        cfg.allowedExtensions.contains (fileExtension f.name) = true) := by
  unfold fileErrors
  by_cases h1 : f.size > cfg.maxFileSize <;>
    by_cases h2 : fileExtension f.name ∈ cfg.allowedExtensions <;>
      simp [h1, h2] <;> omega

theorem fileErrors_length (cfg : FileConfig) (f : FileInfo) :
    (fileErrors cfg f).length =
      (if f.size > cfg.maxFileSize then 1 else 0) +
        (if cfg.allowedExtensions.contains (fileExtension f.name) then 0 else 1) := by
  unfold fileErrors
  by_cases h1 : f.size > cfg.maxFileSize <;>
    by_cases h2 : fileExtension f.name ∈ cfg.allowedExtensions <;>
      simp [h1, h2]

theorem flatMap_fileErrors_length (cfg : FileConfig) (files : List FileInfo) :
    (files.flatMap (fileErrors cfg)).length =
      (files.map (fun f =>
        (if f.size > cfg.maxFileSize then 1 else 0) +
          (if cfg.allowedExtensions.contains (fileExtension f.name) then 0 else 1))).sum := by
  induction files with
  | nil => rfl
  | cons f t ih =>
    simp only [List.flatMap_cons, List.length_append, List.map_cons, List.sum_cons,
      fileErrors_length, ih]

theorem map_set_eq_of_get? {α β : Type} (l : List α) (i : Nat) (a b : α) (f : α → β)
    (h : l.get? i = some a) (hfb : f b = f a) : (l.set i b).map f = l.map f := by
  induction l generalizing i with
  | nil => simp at h
  | cons c t ih =>
    cases i with
    | zero =>
      have hc : c = a := by simpa using h
      simp [hfb, hc]
    | succ j =>
      have h2 : t.get? j = some a := by simpa using h
      simp [ih j h2]

theorem validateVisibleStep_no_summary (cfg : FileConfig) (form : List Step) (step : Step)
    (hfind : form.find? (fun s => s.visible) = some step)
    (hv : validateVisibleStep cfg form = true) : step.hasSummary = false := by
  simp only [validateVisibleStep, hfind] at hv
  cases hnav : findNavigationButton step with
  | none => simp only [hnav] at hv; exact Bool.noConfusion hv
  | some b =>
    simp only [hnav] at hv
    by_cases he : hasVisibleErrorsBare step = true
    · rw [if_pos he] at hv; exact Bool.noConfusion hv
    · have he2 : hasVisibleErrorsBare step = false := by
        cases hbare : hasVisibleErrorsBare step
        · rfl
        · exact absurd hbare he
      unfold hasVisibleErrorsBare at he2
      exact (Bool.or_eq_false_iff.mp he2).2

/-! ## Claim theorems -/

/-- C5: `validateFile` is valid with an empty error list when no files are
selected; the result is valid iff the error list is empty, which happens
iff every file passes both checks; every oversize file is flagged with
its size error regardless of extension and every disallowed extension
with its type error regardless of size; the error count is exactly one
per violation. -/
theorem c5_validateFile_flags_each_violation (cfg : FileConfig) (files : List FileInfo) :
    validateFile cfg [] = { valid := true, errors := [] } ∧
    (validateFile cfg files).valid = (validateFile cfg files).errors.isEmpty ∧
    ((validateFile cfg files).valid = true ↔
      ∀ f ∈ files, f.size ≤ cfg.maxFileSize ∧
        cfg.allowedExtensions.contains (fileExtension f.name) = true) ∧
    (∀ f ∈ files, f.size > cfg.maxFileSize →
      sizeErrorMsg cfg f ∈ (validateFile cfg files).errors) ∧
    (∀ f ∈ files, cfg.allowedExtensions.contains (fileExtension f.name) = false →
      extErrorMsg cfg f ∈ (validateFile cfg files).errors) ∧
    (validateFile cfg files).errors.length =
      (files.map (fun f =>
        (if f.size > cfg.maxFileSize then 1 else 0) +
          (if cfg.allowedExtensions.contains (fileExtension f.name) then 0 else 1))).sum := by
  refine ⟨rfl, ?_, ?_, ?_, ?_, ?_⟩
  · rw [validateFile_valid_eq, validateFile_errors_eq]
  · rw [validateFile_valid_eq]
    simp only [List.isEmpty_iff, List.flatMap_eq_nil_iff]
    constructor
    · intro h f hf; exact (fileErrors_eq_nil_iff cfg f).mp (h f hf)
    · intro h f hf; exact (fileErrors_eq_nil_iff cfg f).mpr (h f hf)
  · intro f hf hs
    rw [validateFile_errors_eq]
    refine List.mem_flatMap.mpr ⟨f, hf, ?_⟩
    unfold fileErrors
    refine List.mem_append_left _ ?_
    rw [if_pos hs]
    exact List.mem_singleton.mpr rfl
  · intro f hf hext
    rw [validateFile_errors_eq]
    refine List.mem_flatMap.mpr ⟨f, hf, ?_⟩
    unfold fileErrors
    refine List.mem_append_right _ ?_
    have hnm : fileExtension f.name ∉ cfg.allowedExtensions := by simpa using hext
    simp [hnm]
  · rw [validateFile_errors_eq]
    exact flatMap_fileErrors_length cfg files

/-- C5 witness: on the concrete demo list, the oversize pdf is flagged for
size and the .exe for type, by direct application of the theorem. -/
theorem c5_validateFile_flags_each_violation_witness :
    ({ name := "big.pdf", size := 10485761 } : FileInfo) ∈ c5DemoFiles ∧
    ({ name := "big.pdf", size := 10485761 } : FileInfo).size > defaultFileConfig.maxFileSize ∧
    sizeErrorMsg defaultFileConfig { name := "big.pdf", size := 10485761 } ∈
      (validateFile defaultFileConfig c5DemoFiles).errors ∧
    extErrorMsg defaultFileConfig { name := "bad.exe", size := 10 } ∈
      (validateFile defaultFileConfig c5DemoFiles).errors :=
  ⟨by decide, by decide,
   (c5_validateFile_flags_each_violation defaultFileConfig c5DemoFiles).2.2.2.1
     { name := "big.pdf", size := 10485761 } (by decide) (by decide),
   (c5_validateFile_flags_each_violation defaultFileConfig c5DemoFiles).2.2.2.2.1
     { name := "bad.exe", size := 10 } (by decide) (by decide)⟩

/-- C6 counterexample: with limit 500 and a value of length 501 the code
computes `remaining = -1`, which is not 0 but is at most 20, so the
counter class is warning, not the danger the claim (danger iff L >= N)
requires. -/
theorem c6_over_limit_class_is_warning :
    (mkA 501).length ≥ 500 ∧
    (updateCharacterCounter (mkA 501) 500).className ≠
      "hsfc-CharacterCounter hsfc-CharacterCounter--danger" ∧
    (updateCharacterCounter (mkA 501) 500).className =
      "hsfc-CharacterCounter hsfc-CharacterCounter--warning" := by decide

/-- C6 amended: the counter text is always `L/N characters`; the class is
danger iff L = N, warning iff N <= L + 20 and L is not N (this includes
every over-limit length), and default iff L + 20 < N; the concrete trio
of the claim (480/500 warning, 500/500 danger, 450/500 default) holds. -/
theorem c6_counter_text_and_thresholds (value : String) (characterLimit : Nat) :
    (updateCharacterCounter value characterLimit).text =
      toString value.length ++ "/" ++ toString characterLimit ++ " characters" ∧
    ((updateCharacterCounter value characterLimit).className =
        "hsfc-CharacterCounter hsfc-CharacterCounter--danger" ↔
      value.length = characterLimit) ∧
    ((updateCharacterCounter value characterLimit).className =
        "hsfc-CharacterCounter hsfc-CharacterCounter--warning" ↔
      (characterLimit ≤ value.length + 20 ∧ value.length ≠ characterLimit)) ∧
    ((updateCharacterCounter value characterLimit).className =
        "hsfc-CharacterCounter hsfc-CharacterCounter--default" ↔
      value.length + 20 < characterLimit) ∧
    (updateCharacterCounter (mkA 480) 500).className =
      "hsfc-CharacterCounter hsfc-CharacterCounter--warning" ∧
    (updateCharacterCounter (mkA 500) 500).className =
      "hsfc-CharacterCounter hsfc-CharacterCounter--danger" ∧
    (updateCharacterCounter (mkA 450) 500).className =
      "hsfc-CharacterCounter hsfc-CharacterCounter--default" := by
  have key : (updateCharacterCounter value characterLimit).className =
      (if (characterLimit : Int) - (value.length : Int) = 0 then
        "hsfc-CharacterCounter hsfc-CharacterCounter--danger"
      else if (characterLimit : Int) - (value.length : Int) ≤ 20 then
        "hsfc-CharacterCounter hsfc-CharacterCounter--warning"
      else "hsfc-CharacterCounter hsfc-CharacterCounter--default") := rfl
  have hdw : ("hsfc-CharacterCounter hsfc-CharacterCounter--danger" : String) ≠
      "hsfc-CharacterCounter hsfc-CharacterCounter--warning" := by decide
  have hdd : ("hsfc-CharacterCounter hsfc-CharacterCounter--danger" : String) ≠
      "hsfc-CharacterCounter hsfc-CharacterCounter--default" := by decide
  have hwd : ("hsfc-CharacterCounter hsfc-CharacterCounter--warning" : String) ≠
      "hsfc-CharacterCounter hsfc-CharacterCounter--default" := by decide
  refine ⟨rfl, ?_, ?_, ?_, by decide, by decide, by decide⟩
  · rw [key]; split_ifs with h0 h1
    · exact ⟨fun _ => by omega, fun _ => rfl⟩
    · exact ⟨fun h => absurd h.symm hdw, fun h => absurd (by omega :
        (characterLimit : Int) - (value.length : Int) = 0) h0⟩
    · exact ⟨fun h => absurd h.symm hdd, fun h => absurd (by omega :
        (characterLimit : Int) - (value.length : Int) = 0) h0⟩
  · rw [key]; split_ifs with h0 h1
    · exact ⟨fun h => absurd h hdw, fun h => by omega⟩
    · exact ⟨fun _ => by omega, fun _ => rfl⟩
    · exact ⟨fun h => absurd h.symm hwd, fun h => by omega⟩
  · rw [key]; split_ifs with h0 h1
    · exact ⟨fun h => absurd h hdd, fun h => by omega⟩
    · exact ⟨fun h => absurd h hwd, fun h => by omega⟩
    · exact ⟨fun _ => by omega, fun _ => rfl⟩

/-- C7 counterexample: the code regex demands the plus sign, so the
digit-only value 123 is accepted, while the claim pattern (optional plus,
at most three digits) would reject it. -/
theorem c7_digit_only_value_accepted :
    validateTelField "123" = true ∧ telValidPerClaim "123" = false := by decide

/-- C7 amended: telephone validity is exactly: trimmed value non-empty,
not the bare plus, and not a MANDATORY plus followed by at most three
digits; the concrete examples of the claim still hold. -/
theorem c7_tel_validity_characterization :
    (∀ value, validateTelField value = telValidAmendedSpec value) ∧
    validateTelField "+1" = false ∧
    validateTelField "" = false ∧
    validateTelField "+1 5551234567" = true ∧
    validateTelField "123" = true := by
  refine ⟨fun value => ?_, by decide, by decide, by decide, by decide⟩
  simp only [validateTelField, telValidAmendedSpec, telCountryCodeOnly]
  exact bool_and_rotate _ _ _

/-- C8: both progress-bar repositioning entry points are idempotent: the
`data-repositioned` marker set on the first pass makes a second
invocation on the same bar return without touching anything. -/
theorem c8_reposition_idempotent (s t : PBState) :
    repositionProgressBar (repositionProgressBar s) = repositionProgressBar s ∧
    positionElementsImmediately (positionElementsImmediately t) =
      positionElementsImmediately t := by
  constructor
  · unfold repositionProgressBar
    by_cases hr : s.repositioned = true
    · simp [hr]
    · by_cases hi : s.inStep = true
      · simp [hr, hi]
      · simp [hr, hi]
  · unfold positionElementsImmediately
    by_cases hr : t.repositioned = true
    · simp [hr]
    · by_cases hi : t.inStep = true
      · simp [hr, hi]
      · simp [hr, hi]

/-- C9 counterexample: at limit 500 and length 503 the summary entry
supplied by `getCharacterLimitErrorMessage` is
`Message: Must be 500 characters or less (currently 3 over)`; it is not,
and does not contain, the claimed text
`You are 3 characters over the limit.` (that wording belongs to the
in-place rewrite of the widget-native error, not to the summary). -/
theorem c9_overage_message_wording :
    getCharacterLimitErrorMessage 500 c9Textarea =
      some "Message: Must be 500 characters or less (currently 3 over)" ∧
    getCharacterLimitErrorMessage 500 c9Textarea ≠
      some "You are 3 characters over the limit." ∧
    jsIncludes "Message: Must be 500 characters or less (currently 3 over)"
      "You are 3 characters over the limit." = false := by decide

/-- C9 amended: for any non-empty resolved label, declared limit N > 0 and
value of length N + k with k > 0, the summary entry reads
`label: Must be N characters or less (currently k over)` — citing the
exact overage count. -/
theorem c9_overage_message_characterization (defaultLimit : Nat) (label : String)
    (limit k : Nat) (v : String) (hlabel : label ≠ "") (hlimit : 0 < limit)
    (hk : 0 < k) (hv : v.length = limit + k) :
    getCharacterLimitErrorMessage defaultLimit
        { ftype := FType.textarea, value := v, dataCharLimit := some limit, label := label } =
      some (label ++ ": Must be " ++ toString limit ++
        " characters or less (currently " ++ toString k ++ " over)") := by
  have hz : ¬(limit = 0) := by omega
  have hgt : limit + k > limit := by omega
  have hsub : limit + k - limit = k := by omega
  simp only [getCharacterLimitErrorMessage, jsOrDefault, jsOr, hz, if_false, hv,
    if_pos hgt, if_neg hlabel, hsub]

/-- C9 witness: the characterization applied at label Message, limit 500
and a 503-character value. -/
theorem c9_overage_message_characterization_witness :
    ("Message" : String) ≠ "" ∧ 0 < 500 ∧ 0 < 3 ∧ (mkA 503).length = 500 + 3 ∧
    getCharacterLimitErrorMessage 500
        { ftype := FType.textarea, value := mkA 503, dataCharLimit := some 500
        , label := "Message" } =
      some ("Message" ++ ": Must be " ++ toString 500 ++
        " characters or less (currently " ++ toString 3 ++ " over)") :=
  ⟨by decide, by decide, by decide, by decide,
   c9_overage_message_characterization 500 "Message" 500 3 (mkA 503)
     (by decide) (by decide) (by decide) (by decide)⟩

/-- C10: a textarea without a `data-character-limit` attribute holding 600
characters is judged invalid by `FieldValidator.isFieldValid` (hardcoded
limit 500) even though `hasCharacterLimitError` under
`DEFAULT_LIMIT = 1000` (as set by `init({characterLimit: 1000})`) reports
no overflow for it. -/
theorem c10_textarea_hardcoded_limit (v : String) (h1 : jsTrim v ≠ "") (h2 : v.length = 600) :
    isFieldValid defaultFileConfig (c10Textarea v) [c10Textarea v] = false ∧
    hasCharacterLimitError (initDefaultLimit (some 1000)) (c10Textarea v) = false := by
  constructor
  · simp only [isFieldValid, c10Textarea, validateTextBasedField, jsOrDefault, h2]
    simp
  · simp only [hasCharacterLimitError, initDefaultLimit, jsOrDefault, c10Textarea, h2]
    simp

/-- C10 witness: the theorem applied to a concrete 600-character value. -/
theorem c10_textarea_hardcoded_limit_witness :
    jsTrim (mkA 600) ≠ "" ∧ (mkA 600).length = 600 ∧
    isFieldValid defaultFileConfig (c10Textarea (mkA 600)) [c10Textarea (mkA 600)] = false ∧
    hasCharacterLimitError (initDefaultLimit (some 1000)) (c10Textarea (mkA 600)) = false :=
  ⟨by decide, by decide,
   (c10_textarea_hardcoded_limit (mkA 600) (by decide) (by decide)).1,
   (c10_textarea_hardcoded_limit (mkA 600) (by decide) (by decide)).2⟩

/-- C1 counterexample: a step whose only problem is an email-format error.
`showValidationError` creates the summary (the collector is non-empty),
but the very next `checkAndRemoveErrorSummary` deletes it because none of
its three live conditions covers format problems — leaving a detected
problem with no summary, so the exists-iff invariant fails. -/
theorem c1_summary_invariant_violated :
    (showValidationError defaultFileConfig 500 c1DemoStep).hasSummary = true ∧
    (checkAndRemoveErrorSummary defaultFileConfig 500
        (showValidationError defaultFileConfig 500 c1DemoStep)).hasSummary = false ∧
    getFieldsWithErrors defaultFileConfig 500
        (checkAndRemoveErrorSummary defaultFileConfig 500
          (showValidationError defaultFileConfig 500 c1DemoStep)) =
      [(0, "Email must be formatted correctly")] := by decide

/-- C1 amended: after `showValidationError` the summary exists iff the
collected problem list is non-empty, and `checkAndRemoveErrorSummary`
keeps an existing summary exactly while one of its three live conditions
(visible native errors, invalid required fields, character-limit
overflow) holds — the exists-iff invariant is relative to those three
conditions, not to the full collector. -/
theorem c1_summary_presence_characterization (cfg : FileConfig) (dl : Nat) (step : Step) :
    (showValidationError cfg dl step).hasSummary =
      !(getFieldsWithErrors cfg dl step).isEmpty ∧
    (checkAndRemoveErrorSummary cfg dl step).hasSummary =
      (step.hasSummary && liveProblems cfg dl step) :=
  ⟨showValidationError_hasSummary cfg dl step,
   checkAndRemoveErrorSummary_hasSummary cfg dl step⟩

/-- C2 counterexample: a step failing validation on a visible error alert
that no `findFieldForError` strategy can attribute (the step holds no
form fields). The handler prevents the default action, but
`showValidationError` collects nothing and renders NO summary, refuting
the clause that an invalid step always gets the synthesized summary. -/
theorem c2_unattributed_error_no_summary :
    validateVisibleStep defaultFileConfig [c2AlertStep] = false ∧
    (handleNextButtonClick defaultFileConfig 500 [c2AlertStep] 0).prevented = true ∧
    ((handleNextButtonClick defaultFileConfig 500 [c2AlertStep] 0).form.get? 0).map
      Step.hasSummary = some false := by decide

/-- C2 amended: the handler prevents the default action iff the step
fails validation; it never changes step visibility; on a valid click it
runs the three-condition removal check and replays nothing — and since
the bare `.hsfc-ErrorAlert` query of `validateVisibleStep` counts an
existing summary itself, a validating step (when it is the visible one)
carries no summary to begin with, so none remains; on an invalid click
it dispatches the replay log on the clicked step and rebuilds the
summary there, present iff the collector found an attributed problem,
with every invalid required telephone field receiving the extended
replay including the deferred focus/blur pair. -/
theorem c2_click_handler_characterization (cfg : FileConfig) (dl : Nat)
    (form : List Step) (i : Nat) (step : Step) (h : form.get? i = some step) :
    (handleNextButtonClick cfg dl form i).prevented = !(validateVisibleStep cfg form) ∧
    (handleNextButtonClick cfg dl form i).form.map Step.visible = form.map Step.visible ∧
    (validateVisibleStep cfg form = true →
      handleNextButtonClick cfg dl form i =
        { prevented := false, replays := []
        , form := form.set i (checkAndRemoveErrorSummary cfg dl step) } ∧
      (form.find? (fun s => s.visible) = some step →
        step.hasSummary = false ∧
        ((handleNextButtonClick cfg dl form i).form.get? i).map Step.hasSummary =
          some false)) ∧
    (validateVisibleStep cfg form = false →
      (handleNextButtonClick cfg dl form i).replays = triggerFieldValidations cfg step ∧
      (handleNextButtonClick cfg dl form i).form =
        form.set i (showValidationError cfg dl step) ∧
      ((handleNextButtonClick cfg dl form i).form.get? i).map Step.hasSummary =
        some (!(getFieldsWithErrors cfg dl step).isEmpty) ∧
      ∀ p ∈ indexedFields step, p.2.ftype = FType.tel → p.2.required = true →
        needsValidation cfg p.2 step.fields = true →
        ∀ e ∈ telReplaySeq,
          (p.1, e) ∈ (handleNextButtonClick cfg dl form i).replays) := by
  have hmain : handleNextButtonClick cfg dl form i =
      if validateVisibleStep cfg form then
        { prevented := false, replays := []
        , form := form.set i (removeValidationError cfg dl step) }
      else
        { prevented := true, replays := triggerFieldValidations cfg step
        , form := form.set i (showValidationError cfg dl step) } := by
    unfold handleNextButtonClick
    rw [h]
  cases hv : validateVisibleStep cfg form with
  | true =>
    rw [hmain, if_pos hv]
    refine ⟨rfl, ?_, ?_, ?_⟩
    · exact map_set_eq_of_get? form i step _ Step.visible h
        (checkAndRemoveErrorSummary_visible cfg dl step)
    · intro _
      refine ⟨rfl, ?_⟩
      intro hfind
      have hs0 : step.hasSummary = false :=
        validateVisibleStep_no_summary cfg form step hfind hv
      refine ⟨hs0, ?_⟩
      rw [get?_set_eq form i step (removeValidationError cfg dl step) h]
      simp [removeValidationError, checkAndRemoveErrorSummary_hasSummary, hs0]
    · intro hfalse; exact Bool.noConfusion hfalse
  | false =>
    rw [hmain, if_neg (by simp [hv])]
    refine ⟨rfl, ?_, ?_, ?_⟩
    · exact map_set_eq_of_get? form i step _ Step.visible h
        (showValidationError_visible cfg dl step)
    · intro ht; exact Bool.noConfusion ht
    · intro _
      refine ⟨rfl, rfl, ?_, ?_⟩
      · rw [get?_set_eq form i step _ h]
        simp [showValidationError_hasSummary]
      · intro p hp htel hreq hneed e he
        unfold triggerFieldValidations
        refine List.mem_append.mpr (Or.inl ?_)
        refine List.mem_flatMap.mpr ⟨p, ?_, ?_⟩
        · unfold dedupGroups
          refine mem_dedupGroupsAux [] _ p (List.mem_filter.mpr ⟨hp, hreq⟩) ?_
          intro hor
          rcases hor with h1 | h1 <;> rw [htel] at h1 <;> exact FType.noConfusion h1
        · rw [if_pos hneed, if_pos htel]
          exact List.mem_map.mpr ⟨e, he, rfl⟩

/-- C2 witness: the characterization applied to a one-step form whose
required telephone field holds the bare country code. -/
theorem c2_click_handler_characterization_witness :
    ([c2TelStep].get? 0 = some c2TelStep) ∧
    (handleNextButtonClick defaultFileConfig 500 [c2TelStep] 0).prevented =
      !(validateVisibleStep defaultFileConfig [c2TelStep]) ∧
    (0, FEvent.deferredFocus) ∈
      (handleNextButtonClick defaultFileConfig 500 [c2TelStep] 0).replays :=
  ⟨rfl,
   (c2_click_handler_characterization defaultFileConfig 500 [c2TelStep] 0 c2TelStep rfl).1,
   (((c2_click_handler_characterization defaultFileConfig 500 [c2TelStep] 0 c2TelStep
        rfl).2.2.2 (by decide)).2.2.2 (0, c2TelField) (by decide) (by decide) (by decide)
      (by decide)) FEvent.deferredFocus (by decide)⟩

/-- C3 counterexample: the second `setupSingleForm` on an instance that is
already in `initializedForms` returns at the membership guard: nothing is
destroyed and nothing is replaced — the first bundle is still the live
current one. -/
theorem c3_second_setup_is_noop :
    setupSingleForm (setupSingleForm c3FreshState) = setupSingleForm c3FreshState ∧
    (setupSingleForm (setupSingleForm c3FreshState)).bundles =
      [{ id := 0, destroyed := false }] ∧
    (setupSingleForm (setupSingleForm c3FreshState)).current = some 0 := by decide

/-- C3 amended: `setupSingleForm` on an initialized instance is a no-op;
the destroy-and-replace contract applies only to an instance that still
has a stale bundle without being in the initialized set: the stale bundle
is destroyed and a fresh, undestroyed bundle becomes the single current
one. -/
theorem c3_setup_teardown_characterization (s : MgrState) :
    (s.initialized = true → setupSingleForm s = s) ∧
    (s.initialized = false →
      (setupSingleForm s).initialized = true ∧
      (setupSingleForm s).current = some s.nextId ∧
      { id := s.nextId, destroyed := false } ∈ (setupSingleForm s).bundles ∧
      ∀ cid, s.current = some cid → cid ≠ s.nextId →
        ∀ b ∈ (setupSingleForm s).bundles, b.id = cid → b.destroyed = true) := by
  constructor
  · intro h; unfold setupSingleForm; rw [if_pos h]
  · intro h
    unfold setupSingleForm
    rw [if_neg (by simp [h])]
    refine ⟨rfl, rfl, ?_, ?_⟩
    · cases hc : s.current <;> simp
    · cases hc : s.current with
      | none => intro cid hcid; exact absurd hcid (by simp)
      | some c =>
        intro cid hcid hne b hb hid
        have hcc : c = cid := by simpa using hcid
        subst hcc
        rcases List.mem_append.mp hb with h1 | h2
        · exact destroyBundle_destroys _ _ _ h1 hid
        · have hb2 : b = { id := s.nextId, destroyed := false } := by simpa using h2
          rw [hb2] at hid
          exact absurd hid.symm hne

/-- C3 witness: the characterization applied to the stale-bundle state:
after re-setup the current bundle is the fresh one and the old bundle of
id 0 is destroyed. -/
theorem c3_setup_teardown_characterization_witness :
    c3StaleState.initialized = false ∧
    (setupSingleForm c3StaleState).current = some c3StaleState.nextId ∧
    ({ id := 0, destroyed := true } : Bundle).destroyed = true :=
  ⟨rfl,
   ((c3_setup_teardown_characterization c3StaleState).2 rfl).2.1,
   ((c3_setup_teardown_characterization c3StaleState).2 rfl).2.2.2 0 rfl (by decide)
     { id := 0, destroyed := true } (by decide) rfl⟩

/-- C4: the `change` listener attached per file input by
`FileUploadValidator.setup` is the unique registration of
`setupSingleForm` that is reachable from no part of the cleanup bundle,
and it is exactly what survives `destroy()` — with any file input
present, `destroy()` does not fully reverse `setup()`. -/
theorem c4_file_change_listener_untracked (d : FormDesc) :
    survivorsAfterDestroy (setupRegs d) =
      List.replicate d.fileInputs { kind := LKind.fileChange, route := LRoute.untracked } ∧
    ∀ r ∈ setupRegs d, r.kind ≠ LKind.fileChange → r.route ≠ LRoute.untracked := by
  have ha : survivorsAfterDestroy
      (List.replicate d.navButtons { kind := LKind.navClick, route := LRoute.scoped }) = [] := by
    rw [survivors_replicate, if_neg (by decide)]
  have hti : survivorsAfterDestroy
      (List.replicate d.textInputs { kind := LKind.textInputLimit, route := LRoute.scoped }) = [] := by
    rw [survivors_replicate, if_neg (by decide)]
  have hb := survivors_flatten_replicate d.visibleFields fieldRegs rfl
  have hp := survivors_flatten_replicate d.phoneFields phoneRegs rfl
  have hd := survivors_flatten_replicate d.dropdowns dropdownRegs rfl
  have ht := survivors_flatten_replicate d.textareas textareaRegs rfl
  have hfo : survivorsAfterDestroy
      [{ kind := LKind.formObserver, route := LRoute.observed }] = [] := rfl
  have hpo : survivorsAfterDestroy
      [{ kind := LKind.progressObserver, route := LRoute.observed }] = [] := rfl
  have hfile : survivorsAfterDestroy
      (List.replicate d.fileInputs { kind := LKind.fileChange, route := LRoute.untracked }) =
      List.replicate d.fileInputs { kind := LKind.fileChange, route := LRoute.untracked } := by
    rw [survivors_replicate, if_pos (by decide)]
  have hsurv : survivorsAfterDestroy (setupRegs d) =
      List.replicate d.fileInputs { kind := LKind.fileChange, route := LRoute.untracked } := by
    unfold setupRegs
    rw [survivors_append, survivors_append, survivors_append, survivors_append,
      survivors_append, survivors_append, survivors_append, survivors_append,
      ha, hb, hti, hfo, hp, hd, hpo, ht, hfile]
    simp
  refine ⟨hsurv, ?_⟩
  intro r hr hk hu
  have hmem : r ∈ survivorsAfterDestroy (setupRegs d) :=
    List.mem_filter.mpr ⟨hr, by simp [hu]⟩
  rw [hsurv] at hmem
  have hre := List.eq_of_mem_replicate hmem
  rw [hre] at hk
  exact hk rfl

/-- C4 witness: on the demo form with one file input, exactly the file
change listener survives destroy, while a tracked registration (the
navigation click handler) is not untracked. -/
theorem c4_file_change_listener_untracked_witness :
    survivorsAfterDestroy (setupRegs c4DemoForm) =
      List.replicate c4DemoForm.fileInputs
        { kind := LKind.fileChange, route := LRoute.untracked } ∧
    ({ kind := LKind.navClick, route := LRoute.scoped } : Reg).route ≠ LRoute.untracked :=
  ⟨(c4_file_change_listener_untracked c4DemoForm).1,
   (c4_file_change_listener_untracked c4DemoForm).2
     { kind := LKind.navClick, route := LRoute.scoped } (by decide) (by decide)⟩
